import Mathlib

/-!
Verification of the subworld access-control layer of `moss_hecs_schedule`
(`src/subworld.rs`), against its specification.

Component types and entity identifiers are encoded as natural numbers;
component values are encoded as natural numbers as well.  The access
descriptor model (`crate::access` / `crate::borrow`: `IntoAccess`,
`ComponentBorrow::has`, `Subset::is_subset`) and the entity store `Frame`
(crate `moss_hecs`) are not part of the given sources, so they are modelled
from the specification (§4.1, §6); everything in `SubWorldRaw`'s impl blocks
is translated directly from `src/subworld.rs`.
-/

namespace HecsSchedule

/-- Modelled from the spec (§3, Access Descriptor): one of `ReadComponent(T)`
or `WriteComponent(T)`; identity is by component type.  The resource variants
play no role in the subworld layer and are omitted.  Component types are
encoded as `Nat`. -/
inductive Access where
  | readC (t : Nat)
  | writeC (t : Nat)
deriving DecidableEq, Repr

/-- The component type a descriptor names. -/
def Access.compType : Access → Nat
  | .readC t => t
  | .writeC t => t

/-- Modelled from the spec (§4.1): `a` is covered by `b` — a
`ReadComponent(T)` is covered by either `ReadComponent(T)` or
`WriteComponent(T)`; a `WriteComponent(T)` is covered only by
`WriteComponent(T)`. -/
def coveredBy : Access → Access → Bool
  | .readC a, .readC b => a == b
  | .readC a, .writeC b => a == b
  | .writeC a, .writeC b => a == b
  | .writeC _, .readC _ => false

/-- Modelled from the spec (§4.1 `has(descriptor)`, missing source
`crate::borrow::ComponentBorrow::has`): is a single descriptor contained in
(covered by a member of) a descriptor set.  A descriptor set is a list of
descriptors; duplicates are harmless for the covering test. -/
def hasDesc (set : List Access) (u : Access) : Bool :=
  set.any (fun b => coveredBy u b)

/-- Modelled from the spec (§4.1 `is_subset(setA, setB)`, missing source
`crate::access::Subset::is_subset`): does every descriptor in `A` have a
covering descriptor in `B`. -/
def is_subset (A B : List Access) : Bool :=
  A.all (fun a => hasDesc B a)

/-- Errors of `moss_hecs_schedule` (`crate::Error`), restricted to the
variants the subworld layer produces.  In the source
`IncompatibleSubworld` carries the type names of the subworld's tag and of
the requested query; here it carries the corresponding descriptor sets. -/
inductive Error where
  | IncompatibleSubworld (subworld : List Access) (query : List Access)
  | NoSuchEntity (entity : Nat)
  | MissingComponent (entity : Nat) (name : Nat)
deriving DecidableEq, Repr

/-- `moss_hecs::ComponentError`, the error type of `Frame::get`:
distinguishes a missing entity from an entity lacking the component
(the latter carries the component's name, encoded as its type id). -/
inductive ComponentError where
  | NoSuchEntity
  | MissingComponent (name : Nat)
deriving DecidableEq, Repr

/-- Modelled from the spec (§6, external storage collaborator
`moss_hecs::Frame`): an entity store.  `entities` associates live entity
ids with their component lists (component type id paired with value);
`nextFree` is the allocator cursor for fresh entity ids. -/
structure Frame where
  entities : List (Nat × List (Nat × Nat))
  nextFree : Nat
deriving DecidableEq, Repr

/-- A frame is well formed when every live entity id lies below the
allocator cursor, so that reserved ids are genuinely fresh. -/
def Frame.wf (f : Frame) : Prop :=
  ∀ p ∈ f.entities, p.1 < f.nextFree

/-- Modelled from the spec (§6 `get<ComponentType>(EntityId)`): fails
distinguishing "no such entity" from "entity exists but lacks component". -/
def Frame.get (f : Frame) (entity : Nat) (c : Nat) : Except ComponentError Nat :=
  match List.lookup entity f.entities with
  | none => .error .NoSuchEntity
  | some comps =>
    match List.lookup c comps with
    | none => .error (.MissingComponent c)
    | some v => .ok v

/-- Modelled from the spec (§6 `get_mut<ComponentType>(EntityId)`): same
lookup discipline as `Frame.get`; the handle it returns is a write handle,
which the value-level model does not distinguish. -/
def Frame.getMut (f : Frame) (entity : Nat) (c : Nat) : Except ComponentError Nat :=
  match List.lookup entity f.entities with
  | none => .error .NoSuchEntity
  | some comps =>
    match List.lookup c comps with
    | none => .error (.MissingComponent c)
    | some v => .ok v

/-- Does an entity's component list satisfy a query's component filter:
every descriptor's component type must be present. -/
def matchesQuery (Q : List Access) (comps : List (Nat × Nat)) : Bool :=
  Q.all (fun a => (List.lookup a.compType comps).isSome)

/-- Modelled from the spec (§6 `query<DescriptorSet>()`): the lazy sequence
of entities matching the query, as the sublist of the store's entries whose
component lists satisfy the filter. -/
def Frame.query (f : Frame) (Q : List Access) : List (Nat × List (Nat × Nat)) :=
  f.entities.filter (fun p => matchesQuery Q p.2)

/-- Modelled from the spec (§6 `query_one<DescriptorSet>(EntityId)`): fails
with a "no such entity" signal if absent, otherwise yields the single-result
accessor (here, the entity's component list). -/
def Frame.queryOne (f : Frame) (entity : Nat) : Except Unit (List (Nat × Nat)) :=
  match List.lookup entity f.entities with
  | none => .error ()
  | some comps => .ok comps

/-- Modelled from the spec (§6 `reserve_entities(count)`): a finite sequence
of `count` fresh entity identifiers, drawn from the allocator cursor. -/
def Frame.reserveEntities (f : Frame) (count : Nat) : List Nat :=
  (List.range count).map (fun i => f.nextFree + i)

/-- `SubWorldRaw<A, T>` (src/subworld.rs:29): a borrow of the world which can
only access a subset of components.  The reference kind `A` collapses to the
frame value itself; the phantom type-level descriptor set `T` becomes the
explicit field `tag`. -/
structure SubWorldRaw where
  frame : Frame
  tag : List Access
deriving DecidableEq, Repr

/-- `SubWorldRaw::new` (src/subworld.rs:37): wraps the handle; no validation
of the tag, no access to the store. -/
def SubWorldRaw.new (frame : Frame) (tag : List Access) : SubWorldRaw :=
  { frame := frame, tag := tag }

/-- `SubWorldRaw::has::<U>` (src/subworld.rs:47): delegates to
`T::has::<U>()` — true if the subworld can access the borrow `U`. -/
def SubWorldRaw.has (sw : SubWorldRaw) (u : Access) : Bool :=
  hasDesc sw.tag u

/-- `SubWorldRaw::has_all::<U>` (src/subworld.rs:52): delegates to
`U::is_subset::<T>()` — true if the world satisfies the whole query. -/
def SubWorldRaw.has_all (sw : SubWorldRaw) (Q : List Access) : Bool :=
  is_subset Q sw.tag

/-- Modelled from the spec (§4.2 `query(Q)`, missing source
`SubWorldRaw::try_query`): requires `is_subset(descriptors(Q), T)`; on
success returns the underlying store's query results; fails with
`IncompatibleSubworld` naming the subworld's set and the query's set. -/
def SubWorldRaw.try_query (sw : SubWorldRaw) (Q : List Access) :
    Except Error (List (Nat × List (Nat × Nat))) :=
  if sw.has_all Q then
    .ok (sw.frame.query Q)
  else
    .error (.IncompatibleSubworld sw.tag Q)

/-- `SubWorldRaw::query` (src/subworld.rs:61): `try_query().expect(..)` —
the panicking variant; a panic is modelled as `none`. -/
def SubWorldRaw.query (sw : SubWorldRaw) (Q : List Access) :
    Option (List (Nat × List (Nat × Nat))) :=
  (sw.try_query Q).toOption

/-- `SubWorldRaw::query_par` (src/subworld.rs:132): also
`try_query().expect(..)`; a panic is modelled as `none`. -/
def SubWorldRaw.query_par (sw : SubWorldRaw) (Q : List Access) :
    Option (List (Nat × List (Nat × Nat))) :=
  (sw.try_query Q).toOption

/-- `SubWorldRaw::query_one` (src/subworld.rs:68): the subset check first,
failing with `IncompatibleSubworld`; then `frame.query_one(entity)`, every
store error mapped to `NoSuchEntity(entity)`; on success
`QueryOne::new(entity, query)` pairs the entity with the accessor. -/
def SubWorldRaw.query_one (sw : SubWorldRaw) (Q : List Access) (entity : Nat) :
    Except Error (Nat × List (Nat × Nat)) :=
  if !(sw.has_all Q) then
    .error (.IncompatibleSubworld sw.tag Q)
  else
    match sw.frame.queryOne entity with
    | .error _ => .error (.NoSuchEntity entity)
    | .ok q => .ok (entity, q)

/-- `SubWorldRaw::get` (src/subworld.rs:87): checks `self.has::<&C>()`, then
delegates to `frame.get::<&C>`, rewrapping the two store errors. -/
def SubWorldRaw.get (sw : SubWorldRaw) (entity : Nat) (c : Nat) :
    Except Error Nat :=
  if !(sw.has (.readC c)) then
    .error (.IncompatibleSubworld sw.tag [.readC c])
  else
    match sw.frame.get entity c with
    | .ok v => .ok v
    | .error .NoSuchEntity => .error (.NoSuchEntity entity)
    | .error (.MissingComponent name) => .error (.MissingComponent entity name)

/-- `SubWorldRaw::get_mut` (src/subworld.rs:107): the permission check in the
source is `self.has::<&C>()` — the *read* borrow, exactly as in `get` — and
the error payload is likewise `type_name::<&C>`; it then delegates to
`frame.get::<&mut C>`. -/
def SubWorldRaw.get_mut (sw : SubWorldRaw) (entity : Nat) (c : Nat) :
    Except Error Nat :=
  if !(sw.has (.readC c)) then
    .error (.IncompatibleSubworld sw.tag [.readC c])
  else
    match sw.frame.getMut entity c with
    | .ok v => .ok v
    | .error .NoSuchEntity => .error (.NoSuchEntity entity)
    | .error (.MissingComponent name) => .error (.MissingComponent entity name)

/-- `SubWorldRaw::reserve_entities` (src/subworld.rs:125): plain delegation
to the store's allocator; no descriptor check of any kind. -/
def SubWorldRaw.reserve_entities (sw : SubWorldRaw) (count : Nat) : List Nat :=
  sw.frame.reserveEntities count

/-- Modelled from the spec (§4.2 `split()`, §7; missing source
`SubWorldRaw::split`): a new subworld over the same store handle narrowed to
`U`; the tests call it as `a.split().unwrap()`, so the subset obligation is
checked at construction and violation fails with `IncompatibleSubworld`. -/
def SubWorldRaw.split (sw : SubWorldRaw) (U : List Access) :
    Except Error SubWorldRaw :=
  if is_subset U sw.tag then
    .ok { frame := sw.frame, tag := U }
  else
    .error (.IncompatibleSubworld sw.tag U)

/-! ## Helper lemmas -/

theorem coveredBy_refl (a : Access) : coveredBy a a = true := by
  cases a <;> simp [coveredBy]

theorem coveredBy_trans {a b c : Access} (h1 : coveredBy a b = true)
    (h2 : coveredBy b c = true) : coveredBy a c = true := by
  cases a <;> cases b <;> cases c <;> simp_all [coveredBy]

theorem is_subset_iff (A B : List Access) :
    is_subset A B = true ↔ ∀ a ∈ A, ∃ b ∈ B, coveredBy a b = true := by
  simp [is_subset, hasDesc, List.all_eq_true, List.any_eq_true]

/-! ## Claims -/

/-- C1: the claim says `get_mut` requires a `WriteComponent(C)` descriptor and
rejects a tag holding only `ReadComponent(C)`.  The source's check
(src/subworld.rs:108) is `self.has::<&C>()` — the read borrow — so a subworld
tagged with only `ReadComponent(0)` passes the permission check and `get_mut`
hands out the component: the write descriptor is absent, yet the call
succeeds instead of failing with `IncompatibleSubworld`. -/
theorem C1_get_mut_accepts_read_only_tag :
    hasDesc [Access.readC 0] (Access.writeC 0) = false ∧
    SubWorldRaw.get_mut
      { frame := { entities := [(0, [(0, 42)])], nextFree := 1 },
        tag := [Access.readC 0] } 0 0 = .ok 42 :=
  ⟨rfl, rfl⟩

/-- C3 (counterexample): as stated, the claim requires `get_mut` to fail with
`IncompatibleSubworld`, checked first, whenever the required descriptor —
`WriteComponent(C)` for `get_mut` — is missing from the subworld's set.  On a
subworld tagged only `ReadComponent(0)` the write descriptor is missing, yet
`get_mut` on an absent entity returns `NoSuchEntity`, not
`IncompatibleSubworld`: the code's first check is for the read descriptor. -/
theorem C3_counterexample_get_mut_precedence :
    hasDesc [Access.readC 0] (Access.writeC 0) = false ∧
    SubWorldRaw.get_mut
      { frame := { entities := [], nextFree := 0 },
        tag := [Access.readC 0] } 5 0 = .error (.NoSuchEntity 5) :=
  ⟨rfl, rfl⟩

/-- C3 (amended): `get` and `get_mut` both gate on coverage of the
`ReadComponent(C)` descriptor (`self.has::<&C>()` in both; `get_mut`'s use of
the read check rather than the write check is the defect recorded at C1).
With that check, the three failure cases have exactly the claimed precedence:
`IncompatibleSubworld` first — for every store state, so the store is never
consulted — otherwise `NoSuchEntity(e)` when the entity is absent, otherwise
`MissingComponent(e, C)` when the entity lacks the component; on success the
component value is returned. -/
theorem C3_get_and_get_mut_precedence (f : Frame) (T : List Access) (e c : Nat) :
    (hasDesc T (.readC c) = false →
      SubWorldRaw.get ⟨f, T⟩ e c = .error (.IncompatibleSubworld T [.readC c]) ∧
      SubWorldRaw.get_mut ⟨f, T⟩ e c = .error (.IncompatibleSubworld T [.readC c])) ∧
    (hasDesc T (.readC c) = true → List.lookup e f.entities = none →
      SubWorldRaw.get ⟨f, T⟩ e c = .error (.NoSuchEntity e) ∧
      SubWorldRaw.get_mut ⟨f, T⟩ e c = .error (.NoSuchEntity e)) ∧
    (∀ comps, hasDesc T (.readC c) = true →
      List.lookup e f.entities = some comps → List.lookup c comps = none →
      SubWorldRaw.get ⟨f, T⟩ e c = .error (.MissingComponent e c) ∧
      SubWorldRaw.get_mut ⟨f, T⟩ e c = .error (.MissingComponent e c)) ∧
    (∀ comps v, hasDesc T (.readC c) = true →
      List.lookup e f.entities = some comps → List.lookup c comps = some v →
      SubWorldRaw.get ⟨f, T⟩ e c = .ok v ∧
      SubWorldRaw.get_mut ⟨f, T⟩ e c = .ok v) := by
  refine ⟨?_, ?_, ?_, ?_⟩
  · intro h
    simp [SubWorldRaw.get, SubWorldRaw.get_mut, SubWorldRaw.has, h]
  · intro h hl
    simp [SubWorldRaw.get, SubWorldRaw.get_mut, SubWorldRaw.has, h,
      Frame.get, Frame.getMut, hl]
  · intro comps h hl hc
    simp [SubWorldRaw.get, SubWorldRaw.get_mut, SubWorldRaw.has, h,
      Frame.get, Frame.getMut, hl, hc]
  · intro comps v h hl hc
    simp [SubWorldRaw.get, SubWorldRaw.get_mut, SubWorldRaw.has, h,
      Frame.get, Frame.getMut, hl, hc]

/-- Witness for C3 (amended): the success branch at a concrete store. -/
theorem C3_get_and_get_mut_precedence_witness :
    SubWorldRaw.get
      ⟨{ entities := [(0, [(1, 7)])], nextFree := 1 }, [Access.readC 1]⟩ 0 1 = .ok 7 ∧
    SubWorldRaw.get_mut
      ⟨{ entities := [(0, [(1, 7)])], nextFree := 1 }, [Access.readC 1]⟩ 0 1 = .ok 7 :=
  (C3_get_and_get_mut_precedence _ [Access.readC 1] 0 1).2.2.2
    [(1, 7)] 7 (by decide) rfl rfl

/-- C4: `has_all` follows the covering rule — `is_subset A B` holds iff every
descriptor in `A` is covered by some descriptor in `B`, where a read of `X`
is covered by a read or a write of `X` and a write of `X` only by a write of
`X`; concretely (encoding i32 := 0, f32 := 1, String := 2),
`has_all::<(&mut f32, &i32)>()` holds on a subworld tagged
`(&i32, &mut f32, &String)` while `has_all` of any set containing
`&mut i32` does not. -/
theorem C4_has_all_covering_rule :
    (∀ A B, is_subset A B = true ↔ ∀ a ∈ A, ∃ b ∈ B, coveredBy a b = true) ∧
    (∀ x b, coveredBy (.readC x) b = true ↔ (b = .readC x ∨ b = .writeC x)) ∧
    (∀ x b, coveredBy (.writeC x) b = true ↔ b = .writeC x) ∧
    (∀ f, SubWorldRaw.has_all ⟨f, [.readC 0, .writeC 1, .readC 2]⟩
      [.writeC 1, .readC 0] = true) ∧
    (∀ f Q, Access.writeC 0 ∈ Q →
      SubWorldRaw.has_all ⟨f, [.readC 0, .writeC 1, .readC 2]⟩ Q = false) := by
  refine ⟨is_subset_iff, ?_, ?_, ?_, ?_⟩
  · intro x b
    cases b <;> simp [coveredBy] <;> omega
  · intro x b
    cases b <;> simp [coveredBy] <;> omega
  · intro f
    show is_subset [Access.writeC 1, Access.readC 0]
      [Access.readC 0, Access.writeC 1, Access.readC 2] = true
    decide
  · intro f Q hQ
    by_contra h
    rw [Bool.not_eq_false] at h
    have hcov := (is_subset_iff Q _).mp h _ hQ
    simp [coveredBy] at hcov

/-- Witness for C4: a query set containing `&mut i32` is rejected. -/
theorem C4_has_all_covering_rule_witness :
    SubWorldRaw.has_all
      ⟨{ entities := [], nextFree := 0 }, [Access.readC 0, Access.writeC 1, Access.readC 2]⟩
      [Access.writeC 0, Access.readC 1] = false :=
  C4_has_all_covering_rule.2.2.2.2 _ _ (by decide)

/-- C2: `query_one` returns `IncompatibleSubworld` whenever the query's
descriptors are not a subset of the tag — for every store state, so the
failing subset check never touches the store — and `NoSuchEntity(e)` when the
subset check passes but the entity is absent from the store. -/
theorem C2_query_one_check_order (f : Frame) (T Q : List Access) (e : Nat) :
    (is_subset Q T = false →
      SubWorldRaw.query_one ⟨f, T⟩ Q e = .error (.IncompatibleSubworld T Q)) ∧
    (is_subset Q T = true → List.lookup e f.entities = none →
      SubWorldRaw.query_one ⟨f, T⟩ Q e = .error (.NoSuchEntity e)) := by
  constructor
  · intro h
    simp [SubWorldRaw.query_one, SubWorldRaw.has_all, h]
  · intro h hl
    simp [SubWorldRaw.query_one, SubWorldRaw.has_all, h, Frame.queryOne, hl]

/-- Witness for C2: both failure branches at concrete inputs. -/
theorem C2_query_one_check_order_witness :
    SubWorldRaw.query_one ⟨{ entities := [], nextFree := 0 }, [Access.readC 0]⟩
      [Access.writeC 0] 3 =
      .error (.IncompatibleSubworld [Access.readC 0] [Access.writeC 0]) ∧
    SubWorldRaw.query_one ⟨{ entities := [], nextFree := 0 }, [Access.readC 0]⟩
      [Access.readC 0] 3 = .error (.NoSuchEntity 3) :=
  ⟨(C2_query_one_check_order _ _ _ 3).1 (by decide),
   (C2_query_one_check_order _ _ _ 3).2 (by decide) rfl⟩

/-- C5: the subset relation underlying `has_all` is reflexive and
transitive. -/
theorem C5_is_subset_refl_trans :
    (∀ A, is_subset A A = true) ∧
    (∀ A B C, is_subset A B = true → is_subset B C = true →
      is_subset A C = true) := by
  constructor
  · intro A
    rw [is_subset_iff]
    intro a ha
    exact ⟨a, ha, coveredBy_refl a⟩
  · intro A B C hAB hBC
    rw [is_subset_iff] at hAB hBC ⊢
    intro a ha
    obtain ⟨b, hb, hab⟩ := hAB a ha
    obtain ⟨c, hc, hbc⟩ := hBC b hb
    exact ⟨c, hc, coveredBy_trans hab hbc⟩

/-- Witness for C5: transitivity applied at concrete descriptor sets. -/
theorem C5_is_subset_refl_trans_witness :
    is_subset [Access.readC 0] [Access.writeC 0, Access.readC 1] = true :=
  C5_is_subset_refl_trans.2 [Access.readC 0] [Access.writeC 0]
    [Access.writeC 0, Access.readC 1] (by decide) (by decide)

/-- Keys all below the allocator cursor are never found at or above it. -/
theorem lookup_none_of_keys_lt {β : Type} {l : List (Nat × β)} {k m : Nat}
    (h : ∀ p ∈ l, p.1 < k) (hm : k ≤ m) : List.lookup m l = none := by
  induction l with
  | nil => rfl
  | cons p t ih =>
    obtain ⟨a, b⟩ := p
    have hp := h (a, b) (List.mem_cons_self _ t)
    have hne : (m == a) = false := by
      rw [beq_eq_false_iff_ne]
      omega
    simp only [List.lookup, hne]
    exact ih (fun q hq => h q (List.mem_cons_of_mem _ hq))

/-- C6: splitting to a subset `U` of the source tag `T` yields a subworld
over the same store handle tagged `U`, and a query whose descriptors are not
a subset of `U` fails on it with `IncompatibleSubworld`, even when they are a
subset of the original `T`. -/
theorem C6_split_narrowing (f : Frame) (T U Q : List Access)
    (hU : is_subset U T = true) (hQT : is_subset Q T = true)
    (hQU : is_subset Q U = false) :
    SubWorldRaw.split ⟨f, T⟩ U = .ok ⟨f, U⟩ ∧
    SubWorldRaw.try_query ⟨f, U⟩ Q = .error (.IncompatibleSubworld U Q) := by
  constructor
  · simp [SubWorldRaw.split, hU]
  · simp [SubWorldRaw.try_query, SubWorldRaw.has_all, hQU]

/-- Witness for C6: `T = (&i32, &f32)` narrowed to `U = (&f32)`; querying
`&i32` — allowed by `T` — fails on the split subworld. -/
theorem C6_split_narrowing_witness :
    SubWorldRaw.split
      ⟨{ entities := [], nextFree := 0 }, [Access.readC 0, Access.readC 1]⟩
      [Access.readC 1] =
      .ok ⟨{ entities := [], nextFree := 0 }, [Access.readC 1]⟩ ∧
    SubWorldRaw.try_query ⟨{ entities := [], nextFree := 0 }, [Access.readC 1]⟩
      [Access.readC 0] =
      .error (.IncompatibleSubworld [Access.readC 1] [Access.readC 0]) :=
  C6_split_narrowing _ _ _ _ (by decide) (by decide) (by decide)

/-- C7: a subworld tagged with the empty descriptor set accepts `query(())`
— the empty set is a subset of every tag, so no component permission is
required — and the query enumerates every entity of the store: it returns
the full entity list, whose length is the number of live entities. -/
theorem C7_empty_subworld_enumerates (f : Frame) :
    (∀ T : List Access, is_subset [] T = true) ∧
    SubWorldRaw.query ⟨f, []⟩ [] = some f.entities ∧
    (f.query []).length = f.entities.length := by
  refine ⟨fun T => rfl, ?_, ?_⟩
  · simp [SubWorldRaw.query, SubWorldRaw.try_query, SubWorldRaw.has_all,
      Frame.query, matchesQuery, is_subset, Except.toOption]
  · simp [Frame.query, matchesQuery]

/-- Witness for C7: the enumeration at a concrete two-entity store. -/
theorem C7_empty_subworld_enumerates_witness :
    SubWorldRaw.query ⟨{ entities := [(0, [(0, 1)]), (1, [])], nextFree := 2 }, []⟩ []
      = some [(0, [(0, 1)]), (1, [])] :=
  (C7_empty_subworld_enumerates _).2.1

/-- C8: `reserve_entities` performs no descriptor check — its result does not
depend on the tag at all, so no `IncompatibleSubworld` is possible — and on a
well-formed store it yields exactly `count` entity identifiers, none of which
is present in the store. -/
theorem C8_reserve_entities_fresh (f : Frame) (T1 T2 : List Access) (n : Nat)
    (hwf : f.wf) :
    SubWorldRaw.reserve_entities ⟨f, T1⟩ n = SubWorldRaw.reserve_entities ⟨f, T2⟩ n ∧
    (SubWorldRaw.reserve_entities ⟨f, T1⟩ n).length = n ∧
    ∀ i ∈ SubWorldRaw.reserve_entities ⟨f, T1⟩ n,
      List.lookup i f.entities = none := by
  refine ⟨rfl, by simp [SubWorldRaw.reserve_entities, Frame.reserveEntities], ?_⟩
  intro i hi
  simp only [SubWorldRaw.reserve_entities, Frame.reserveEntities,
    List.mem_map, List.mem_range] at hi
  obtain ⟨j, _, hji⟩ := hi
  exact lookup_none_of_keys_lt hwf (by omega)

/-- Witness for C8: reserving two entities from a one-entity store. -/
theorem C8_reserve_entities_fresh_witness :
    (SubWorldRaw.reserve_entities
      ⟨{ entities := [(0, [(0, 1)])], nextFree := 1 }, [Access.readC 0]⟩ 2).length = 2 ∧
    ∀ i ∈ SubWorldRaw.reserve_entities
      ⟨{ entities := [(0, [(0, 1)])], nextFree := 1 }, [Access.readC 0]⟩ 2,
      List.lookup i ({ entities := [(0, [(0, 1)])], nextFree := 1 } : Frame).entities = none :=
  ⟨(C8_reserve_entities_fresh _ [Access.readC 0] [] 2 (by unfold Frame.wf; decide)).2.1,
   (C8_reserve_entities_fresh _ [Access.readC 0] [] 2 (by unfold Frame.wf; decide)).2.2⟩

/-- C9: `SubWorldRaw::new` wraps the handle with no validation of the tag and
cannot fail: it is a total function returning exactly the pair of the given
handle and tag, leaving the store untouched; a mis-specified tag surfaces
only later, when an operation's subset check runs. -/
theorem C9_new_no_validation (f : Frame) (T : List Access) :
    SubWorldRaw.new f T = ⟨f, T⟩ ∧
    (SubWorldRaw.new f T).frame = f ∧
    (SubWorldRaw.new f T).tag = T ∧
    (∀ Q, is_subset Q T = false →
      SubWorldRaw.try_query (SubWorldRaw.new f T) Q =
        .error (.IncompatibleSubworld T Q)) := by
  refine ⟨rfl, rfl, rfl, ?_⟩
  intro Q h
  simp [SubWorldRaw.try_query, SubWorldRaw.has_all, SubWorldRaw.new, h]

/-- Witness for C9: a tag that grants nothing is accepted by `new` and the
error surfaces only at query time. -/
theorem C9_new_no_validation_witness :
    SubWorldRaw.try_query
      (SubWorldRaw.new { entities := [], nextFree := 0 } [Access.readC 0])
      [Access.writeC 0] =
      .error (.IncompatibleSubworld [Access.readC 0] [Access.writeC 0]) :=
  (C9_new_no_validation _ _).2.2.2 [Access.writeC 0] (by decide)

/-- C10: `query_par` and `query` delegate to the same `try_query` and unwrap
its result, so they are the same function, and they panic (modelled `none`)
exactly when the query's descriptors are not a subset of the tag. -/
theorem C10_query_par_equals_query (sw : SubWorldRaw) (Q : List Access) :
    SubWorldRaw.query_par sw Q = SubWorldRaw.query sw Q ∧
    (SubWorldRaw.query sw Q = none ↔ is_subset Q sw.tag = false) := by
  refine ⟨rfl, ?_⟩
  cases h : is_subset Q sw.tag <;>
    simp [SubWorldRaw.query, SubWorldRaw.try_query, SubWorldRaw.has_all, h,
      Except.toOption]

/-- Witness for C10: agreement and the panic condition at a concrete
subworld. -/
theorem C10_query_par_equals_query_witness :
    SubWorldRaw.query_par ⟨{ entities := [], nextFree := 0 }, []⟩ [Access.readC 0] =
      SubWorldRaw.query ⟨{ entities := [], nextFree := 0 }, []⟩ [Access.readC 0] :=
  (C10_query_par_equals_query _ _).1

end HecsSchedule
